import Mathlib

/-!
Verification of the RagAgent repository (src/app.py, src/ingest.py, src/db_utils.py):
a shallow embedding of its data model and operations, with theorems settling the
specification's claims about chunking, document listing, deletion, ingestion,
configuration checks, embedding dimensions, citations and chat history.
-/

namespace RagAgent

/-! ## Chat / citation model (src/app.py, chat interface, lines 177-225) -/

/-- A retrieved source node as produced by `streaming_response.source_nodes`:
chunk text plus a metadata key-value map. -/
structure SourceNode where
  text : String
  metadata : List (String × String)
deriving Repr, DecidableEq

/-- Metadata dictionary lookup, modelling `node.metadata['file_name']` and the
membership test `'file_name' in node.metadata` (app.py line 209). -/
def metaLookup (node : SourceNode) (key : String) : Option String :=
  node.metadata.lookup key

/-- The set of unique file names collected from the retrieved nodes
(app.py lines 206-210): a node whose metadata lacks the `file_name` key
contributes nothing; duplicates are collapsed as by the Python `set`. -/
def source_files (nodes : List SourceNode) : List String :=
  (nodes.filterMap (fun n => metaLookup n "file_name")).dedup

/-- The citation list in display order, modelling `sorted(list(source_files))`
(app.py line 215): the distinct file names in ascending lexicographic order. -/
def sorted_source_files (nodes : List SourceNode) : List String :=
  List.insertionSort (fun a b => a ≤ b) (source_files nodes)

/-- The citations markdown block built after streaming completes
(app.py lines 202-216): empty when no nodes were retrieved or none carries a
`file_name`; otherwise a header followed by one bullet per sorted file name. -/
def citations_markdown (nodes : List SourceNode) : String :=
  if nodes.isEmpty then ""
  else if (source_files nodes).isEmpty then ""
  else (sorted_source_files nodes).foldl
    (fun acc f => acc ++ "\n* `" ++ f ++ "`") "\n\n---\n**Източници:**"

/-- Accumulation of the streamed tokens into `full_response`
(app.py lines 197-200): the loop `for text in response_gen: full_response += text`. -/
def full_response (tokens : List String) : String :=
  tokens.foldl (fun acc t => acc ++ t) ""

/-- `final_output` (app.py line 219): the streamed answer text with the citation
block concatenated after the stream has been fully consumed. -/
def final_output (tokens : List String) (nodes : List SourceNode) : String :=
  full_response tokens ++ citations_markdown nodes

/-- One entry of `st.session_state.messages`. -/
structure ChatMessage where
  role : String
  content : String
deriving Repr, DecidableEq

/-- One chat turn (app.py lines 185-225): append the user prompt to the history,
stream the answer, build the citation block, display `final_output`, and append
the assistant entry holding exactly the displayed text. Returns the new history
and the text shown in the placeholder at the end of the turn. -/
def chat_turn (history : List ChatMessage) (prompt : String)
    (tokens : List String) (nodes : List SourceNode) :
    List ChatMessage × String :=
  let h1 := history ++ [⟨"user", prompt⟩]
  let out := final_output tokens nodes
  (h1 ++ [⟨"assistant", out⟩], out)

/-! ## Claims C1, C4, C9 -/

/-- C1: the citation block appended to an answer is built from the deduplicated,
alphabetically sorted `file_name` values of exactly the nodes retrieved for this
query (the block is a function of those nodes alone, so never of the full corpus
or of prior turns), and it is appended after the whole token stream has been
folded into `full_response`, never interleaved with streamed text. -/
theorem citation_block_sorted_dedup_after_stream
    (tokens : List String) (nodes : List SourceNode) :
    final_output tokens nodes = full_response tokens ++ citations_markdown nodes
    ∧ full_response tokens = String.join tokens
    ∧ List.Sorted (fun a b => a ≤ b) (sorted_source_files nodes)
    ∧ (sorted_source_files nodes).Nodup
    ∧ (∀ f, f ∈ sorted_source_files nodes ↔
        ∃ n ∈ nodes, metaLookup n "file_name" = some f) := by
  refine ⟨rfl, ?_, ?_, ?_, ?_⟩
  · induction tokens with
    | nil => rfl
    | cons t ts ih => simp [full_response, String.join] at *
  · exact List.sorted_insertionSort _ _
  · exact ((List.perm_insertionSort _ _).nodup_iff).mpr (List.nodup_dedup _)
  · intro f
    rw [sorted_source_files, List.mem_insertionSort, source_files,
      List.mem_dedup, List.mem_filterMap]

/-- C4: when retrieval returns zero chunks, the displayed and persisted output is
exactly the streamed answer text (produced from the model call alone) and the
citation block is the empty string: no header, no empty list marker. -/
theorem no_nodes_no_citation_block (tokens : List String) :
    final_output tokens [] = full_response tokens
    ∧ citations_markdown [] = "" := by
  constructor
  · show full_response tokens ++ citations_markdown [] = full_response tokens
    simp [citations_markdown]
  · simp [citations_markdown]

/-- C9: the conversation history is append-only: the turn produces the old
history with exactly a user entry and an assistant entry appended, the first
`history.length` entries are untouched, and the appended assistant content is
exactly the displayed text (`final_output`, citations already concatenated). -/
theorem history_append_only_and_replay (history : List ChatMessage)
    (prompt : String) (tokens : List String) (nodes : List SourceNode) :
    (chat_turn history prompt tokens nodes).1
      = history ++ [⟨"user", prompt⟩, ⟨"assistant", final_output tokens nodes⟩]
    ∧ ((chat_turn history prompt tokens nodes).1).take history.length = history
    ∧ (chat_turn history prompt tokens nodes).2 = final_output tokens nodes := by
  refine ⟨by simp [chat_turn], ?_, rfl⟩
  simp [chat_turn, List.take_append]

/-! ## Document listing (src/app.py, get_stored_files, lines 75-111) -/

/-- One row of the `data_agentic_rag_documents` table: its `metadata_` JSON map. -/
structure TableRow where
  metadata_ : List (String × String)
deriving Repr, DecidableEq

/-- Result set of the SQL query at app.py lines 94-98:
`SELECT DISTINCT metadata_->>'file_name' FROM data_agentic_rag_documents WHERE
metadata_->>'file_name' IS NOT NULL`. Rows without the key yield NULL and are
filtered; `DISTINCT` is modelled as first-occurrence deduplication in table row
order — the query has no ORDER BY, so the store guarantees no ordering and row
order is one realizable result order. -/
def sql_distinct_file_names (table : List TableRow) : List String :=
  (table.filterMap (fun r => r.metadata_.lookup "file_name")).dedup

/-- The three ways the direct database access inside `get_stored_files` can end:
a result set, the missing-table error `psycopg2.errors.UndefinedTable`
caught at line 104, or any other exception caught at line 108. -/
inductive StoreAccess where
  | ok (table : List TableRow)
  | undefinedTable
  | otherError (msg : String)
deriving Repr, DecidableEq

/-- `get_stored_files` (app.py lines 75-111): returns the file-name list and the
error text shown in the sidebar, if any. The whole body is inside `try`; the
missing-table handler returns `[]` silently, the catch-all handler displays the
error and returns `[]`. The final comprehension `[row[0] for row in results if
row and row[0]]` drops falsy values, i.e. empty strings. -/
def get_stored_files : StoreAccess → List String × Option String
  | .ok table => ((sql_distinct_file_names table).filter (fun s => s ≠ ""), none)
  | .undefinedTable => ([], none)
  | .otherError e => ([], some ("DB Error: " ++ e))

/-! ## Claims C3 and C10 -/

/-- C3 counterexample: the listing is not sorted. With the store holding
`b.txt`'s row before `a.txt`'s row, `get_stored_files` returns
`["b.txt", "a.txt"]` — the SQL query has no ORDER BY and the Python code never
sorts — which is not in ascending order. -/
theorem get_stored_files_not_sorted :
    (get_stored_files (.ok [⟨[("file_name", "b.txt")]⟩,
        ⟨[("file_name", "a.txt")]⟩])).1 = ["b.txt", "a.txt"]
    ∧ ¬ List.Sorted (fun a b => a ≤ b) ["b.txt", "a.txt"] := by
  constructor
  · rfl
  · intro h
    have hba : ("b.txt" : String) ≤ "a.txt" :=
      List.rel_of_sorted_cons h "a.txt" (by simp)
    rw [String.le_iff_toList_le] at hba
    exact absurd hba (by decide)

/-- C3 amended: the listing returns the distinct document identifiers
(deduplicated, in store row order, not necessarily sorted, empty names dropped),
and an empty store or a missing backing table yields an empty result rather than
an error. -/
theorem get_stored_files_distinct_and_tolerant (table : List TableRow) :
    ((get_stored_files (.ok table)).1).Nodup
    ∧ (∀ f, f ∈ (get_stored_files (.ok table)).1 ↔
        (∃ r ∈ table, r.metadata_.lookup "file_name" = some f) ∧ f ≠ "")
    ∧ (get_stored_files (.ok [])).1 = []
    ∧ (get_stored_files .undefinedTable).1 = [] := by
  refine ⟨?_, ?_, rfl, rfl⟩
  · exact (List.nodup_dedup _).filter _
  · intro f
    simp [get_stored_files, sql_distinct_file_names, List.mem_filter,
      List.mem_dedup, List.mem_filterMap]

/-- C10: `get_stored_files` always returns a list and never propagates an
exception: the missing-table case yields `[]` with nothing displayed, every
other database error yields `[]` after displaying the error text, and the
returned list in the error case is identical to that of an empty store — the
caller cannot tell a store failure from an empty knowledge base by the return
value. -/
theorem get_stored_files_swallows_errors (e : String) :
    get_stored_files .undefinedTable = ([], none)
    ∧ get_stored_files (.otherError e) = ([], some ("DB Error: " ++ e))
    ∧ (get_stored_files (.otherError e)).1 = (get_stored_files (.ok [])).1 := by
  exact ⟨rfl, rfl, rfl⟩

/-! ## Deletion (src/app.py, Delete File button, lines 163-175) -/

/-- A chunk record as stored by the index: its parent reference document id
(which the app sets to the uploaded file's name, app.py line 133) and text. -/
structure StoredChunk where
  refDocId : String
  text : String
deriving Repr, DecidableEq

/-- Outcome of a deletion request. -/
inductive DeleteResult where
  | ok (remaining : List StoredChunk)
  | notFound
deriving Repr, DecidableEq

/-- Modelled from the spec: `index.delete_ref_doc` (app.py line 168) is framework
code not present in src/. Per the spec's registry contract, deleting an
identifier removes every chunk whose parent identifier matches and no others,
and an identifier with no matching chunks is reported as `NotFoundError`,
not treated as success. -/
def delete_ref_doc (store : List StoredChunk) (docId : String) : DeleteResult :=
  if store.any (fun c => c.refDocId = docId) then
    .ok (store.filter (fun c => c.refDocId ≠ docId))
  else .notFound

/-- The Delete File button handler (app.py lines 163-175): on success the store
is replaced and a success banner shown (`true`); when the deletion raises, the
exception handler shows an error instead (`false`) and the store is unchanged. -/
def delete_file_action (store : List StoredChunk) (docId : String) :
    List StoredChunk × Bool :=
  match delete_ref_doc store docId with
  | .ok remaining => (remaining, true)
  | .notFound => (store, false)

/-- C5: a deletion request for an identifier with no matching chunks ends in the
not-found outcome and the handler does not report success; for an identifier
with at least one matching chunk, the resulting store holds exactly the chunks
of other documents: every chunk of the named document is removed and no other
chunk is touched. -/
theorem delete_removes_exactly_matching (store : List StoredChunk)
    (docId : String) :
    ((∀ c ∈ store, c.refDocId ≠ docId) →
      delete_ref_doc store docId = .notFound
        ∧ (delete_file_action store docId).2 = false)
    ∧ ((∃ c ∈ store, c.refDocId = docId) →
      (delete_file_action store docId).2 = true
        ∧ ∀ c, c ∈ (delete_file_action store docId).1 ↔
            c ∈ store ∧ c.refDocId ≠ docId) := by
  constructor
  · intro hnone
    have hany : store.any (fun c => c.refDocId = docId) = false := by
      simp only [List.any_eq_false, decide_eq_true_eq]
      exact hnone
    constructor
    · simp [delete_ref_doc, hany]
    · simp [delete_file_action, delete_ref_doc, hany]
  · intro hsome
    have hany : store.any (fun c => c.refDocId = docId) = true := by
      simp only [List.any_eq_true, decide_eq_true_eq]
      exact hsome
    constructor
    · simp [delete_file_action, delete_ref_doc, hany]
    · intro c
      simp [delete_file_action, delete_ref_doc, hany, List.mem_filter]

/-- Witness for C5 on a concrete store: `b.txt` has no chunk, so deleting it is
not-found; deleting `a.txt` keeps exactly the `c.txt` chunk. -/
theorem delete_removes_exactly_matching_witness :
    (delete_ref_doc [⟨"a.txt", "x"⟩, ⟨"c.txt", "y"⟩] "b.txt" = .notFound
        ∧ (delete_file_action [⟨"a.txt", "x"⟩, ⟨"c.txt", "y"⟩] "b.txt").2 = false)
    ∧ ((delete_file_action [⟨"a.txt", "x"⟩, ⟨"c.txt", "y"⟩] "a.txt").2 = true
        ∧ ∀ c, c ∈ (delete_file_action [⟨"a.txt", "x"⟩, ⟨"c.txt", "y"⟩] "a.txt").1 ↔
            c ∈ [(⟨"a.txt", "x"⟩ : StoredChunk), ⟨"c.txt", "y"⟩]
              ∧ c.refDocId ≠ "a.txt") :=
  ⟨(delete_removes_exactly_matching [⟨"a.txt", "x"⟩, ⟨"c.txt", "y"⟩] "b.txt").1
      (by decide),
   (delete_removes_exactly_matching [⟨"a.txt", "x"⟩, ⟨"c.txt", "y"⟩] "a.txt").2
      ⟨⟨"a.txt", "x"⟩, by simp⟩⟩

/-! ## Store configuration (src/db_utils.py, get_vector_store, lines 12-59) -/

/-- The five environment settings read by `os.getenv` at db_utils.py lines
16-20; `none` models an unset variable. -/
structure DbEnv where
  db_user : Option String
  db_password : Option String
  db_host : Option String
  db_port : Option String
  db_name : Option String
deriving Repr, DecidableEq

/-- Python truthiness of a single `os.getenv` result inside `all([...])`
(db_utils.py line 22): `None` and the empty string are falsy. -/
def envTruthy : Option String → Bool
  | none => false
  | some s => s ≠ ""

/-- The two failure modes of `get_vector_store`: the `ValueError` raised at
db_utils.py line 23 when the environment is incomplete, and the
`psycopg2.OperationalError` re-raised at line 47 when the probe connection
fails. -/
inductive StoreInitError where
  | configError
  | connectionError
deriving Repr, DecidableEq

/-- The parameters handed to `PGVectorStore.from_params`
(db_utils.py lines 50-58). -/
structure StoreParams where
  table_name : String
  embed_dim : Nat
deriving Repr, DecidableEq

/-- `get_vector_store` (db_utils.py lines 12-59). The environment check at line
22 runs before anything touches the database, so the returned flag records
whether the `psycopg2.connect` probe was attempted at all; `dbReachable` models
whether that probe would succeed. -/
def get_vector_store (env : DbEnv) (dbReachable : Bool) :
    Except StoreInitError StoreParams × Bool :=
  if !(envTruthy env.db_user && envTruthy env.db_password && envTruthy env.db_host
      && envTruthy env.db_port && envTruthy env.db_name) then
    (.error .configError, false)
  else if !dbReachable then
    (.error .connectionError, true)
  else
    (.ok ⟨"agentic_rag_documents", 384⟩, true)

/-- C7: if any of the five datastore environment settings is absent,
`get_vector_store` fails with the configuration error and no connection to the
store is ever attempted — the failure happens at construction time, before any
runtime operation. -/
theorem missing_env_is_config_error (env : DbEnv) (reachable : Bool)
    (h : env.db_user = none ∨ env.db_password = none ∨ env.db_host = none
      ∨ env.db_port = none ∨ env.db_name = none) :
    (get_vector_store env reachable).1 = .error .configError
    ∧ (get_vector_store env reachable).2 = false := by
  have hfalse : (envTruthy env.db_user && envTruthy env.db_password
      && envTruthy env.db_host && envTruthy env.db_port
      && envTruthy env.db_name) = false := by
    rcases h with h | h | h | h | h <;> simp [h, envTruthy]
  constructor <;> simp [get_vector_store, hfalse]

/-- Witness for C7: with only the password unset, construction fails with the
configuration error and no connection is attempted. -/
theorem missing_env_is_config_error_witness :
    (get_vector_store ⟨some "u", none, some "h", some "5432", some "d"⟩ true).1
        = .error .configError
    ∧ (get_vector_store ⟨some "u", none, some "h", some "5432", some "d"⟩ true).2
        = false :=
  missing_env_is_config_error ⟨some "u", none, some "h", some "5432", some "d"⟩
    true (by simp)

/-! ## Embedding dimension (src/db_utils.py line 57, src/ingest.py line 18,
src/app.py line 47) -/

/-- The system-wide embedding dimension passed as `embed_dim` to
`PGVectorStore.from_params` (db_utils.py line 57). -/
def embed_dim : Nat := 384

/-- The embedding model configured for ingestion (ingest.py line 18). -/
def ingest_embed_model : String := "BAAI/bge-small-en-v1.5"

/-- The embedding model configured in the chat app, used to embed queries
(app.py line 47). -/
def app_embed_model : String := "BAAI/bge-small-en-v1.5"

/-- Modelled from the spec: the vector column and comparison live in the
external store (pgvector), not in src/. Per the spec, every stored or compared
vector must have the system-wide dimension and a mismatched dimension is a hard
error — never silently truncated or padded. Vector entries are abstracted to
integers; only the length matters here. -/
def store_vector (v : List Int) : Except String (List Int) :=
  if v.length = embed_dim then .ok v else .error "dimension mismatch"

/-- C8: the embedding dimension is the single constant 384, fixed by the same
embedding model name configured at ingestion time and at query time; the store
is constructed with exactly this dimension, and a vector is accepted exactly
when its length equals it — a mismatched vector is a hard error, never
truncated or padded into acceptance. -/
theorem embed_dim_constant_and_enforced (v : List Int) :
    embed_dim = 384
    ∧ app_embed_model = ingest_embed_model
    ∧ (get_vector_store ⟨some "u", some "p", some "h", some "5432", some "d"⟩
        true).1 = .ok ⟨"agentic_rag_documents", embed_dim⟩
    ∧ (store_vector v = .ok v ↔ v.length = embed_dim)
    ∧ (v.length ≠ embed_dim → store_vector v = .error "dimension mismatch") := by
  refine ⟨rfl, rfl, rfl, ?_, ?_⟩
  · constructor
    · intro h
      by_contra hne
      simp [store_vector, hne] at h
    · intro h
      simp [store_vector, h]
  · intro h
    simp [store_vector, h]

/-- Witness for C8 at a concrete vector: the zero vector of length 384 is
accepted; its length-3 truncation is rejected. -/
theorem embed_dim_constant_and_enforced_witness :
    (store_vector (List.replicate 384 0) = .ok (List.replicate 384 0) ↔
      (List.replicate (384 : Nat) (0 : Int)).length = embed_dim)
    ∧ ((List.replicate (3 : Nat) (0 : Int)).length ≠ embed_dim →
      store_vector (List.replicate 3 0) = .error "dimension mismatch")
    ∧ store_vector (List.replicate 3 0) = .error "dimension mismatch" :=
  ⟨(embed_dim_constant_and_enforced (List.replicate 384 0)).2.2.2.1,
   (embed_dim_constant_and_enforced (List.replicate 3 0)).2.2.2.2,
   (embed_dim_constant_and_enforced (List.replicate 3 0)).2.2.2.2 (by decide)⟩

/-! ## Ingestion CLI (src/ingest.py, ingest_data and main, lines 26-88) -/

/-- The state `ingest_data` observes: whether `os.path.isdir(data_path)` holds,
the documents `SimpleDirectoryReader.load_data()` would return, and whether
`get_vector_store()` succeeds. -/
structure IngestWorld where
  isDirectory : Bool
  documents : List String
  storeReachable : Bool
deriving Repr, DecidableEq

/-- The four ways `ingest_data` ends. Every one is a plain `return` in the
source — the invalid-path branch (ingest.py lines 34-36) prints an error
message and returns `None`; nothing raises. -/
inductive IngestOutcome where
  | invalidPath
  | noDocuments
  | storeUnreachable
  | ingested (count : Nat)
deriving Repr, DecidableEq

/-- `ingest_data` (ingest.py lines 26-74), with each early `return` mapped to
its outcome. -/
def ingest_data (w : IngestWorld) : IngestOutcome :=
  if !w.isDirectory then .invalidPath
  else if w.documents.isEmpty then .noDocuments
  else if !w.storeReachable then .storeUnreachable
  else .ingested w.documents.length

/-- Argument handling of the `__main__` block (ingest.py lines 79-88):
`datapath` is optional and defaults to `./data`. -/
def parse_datapath (args : List String) : String :=
  match args with
  | [] => "./data"
  | p :: _ => p

/-- The whole CLI run (ingest.py lines 79-88): parse the path, run
`ingest_data`, and exit. `ingest_data` returns normally on every branch and
`__main__` neither inspects its result nor calls `sys.exit`, so the process
exit code is 0 for every outcome, the invalid-path one included. -/
def ingest_main (w : IngestWorld) (args : List String) : Nat × IngestOutcome :=
  let _datapath := parse_datapath args
  (0, ingest_data w)

/-- C6 counterexample: running the CLI on a missing path completes normally.
With a world where the path is not a directory, the run reports the
invalid-path outcome (an error message is printed) yet the process exit code is
0 — not the non-zero/error result the claim requires. -/
theorem ingest_invalid_path_exit_zero :
    ingest_main ⟨false, [], true⟩ ["/no/such/dir"] = (0, .invalidPath)
    ∧ (ingest_main ⟨false, [], true⟩ ["/no/such/dir"]).1 = 0 := by
  exact ⟨rfl, rfl⟩

/-- C6 amended: on a missing or unreadable path the operation prints an error
message and returns early without ingesting anything, but it completes normally
with exit code 0 (no IngestionError, no non-zero result); the path defaults to
`./data` when omitted. -/
theorem ingest_invalid_path_returns_normally (w : IngestWorld)
    (args : List String) (h : w.isDirectory = false) :
    ingest_data w = .invalidPath
    ∧ (ingest_main w args).1 = 0
    ∧ parse_datapath [] = "./data" := by
  refine ⟨?_, rfl, rfl⟩
  simp [ingest_data, h]

/-- Witness for the amended C6 at a concrete world with a missing path. -/
theorem ingest_invalid_path_returns_normally_witness :
    ingest_data ⟨false, ["doc"], true⟩ = .invalidPath
    ∧ (ingest_main ⟨false, ["doc"], true⟩ ["./missing"]).1 = 0
    ∧ parse_datapath [] = "./data" :=
  ingest_invalid_path_returns_normally ⟨false, ["doc"], true⟩ ["./missing"] rfl

/-! ## Chunking (src/ingest.py line 19) -/

/-- The chunk size configured at ingest.py line 19. -/
def default_chunk_size : Nat := 512

/-- The chunk overlap configured at ingest.py line 19. -/
def default_chunk_overlap : Nat := 20

/-- Modelled from the spec: the splitter configured at ingest.py line 19
(`SentenceSplitter(chunk_size=512, chunk_overlap=20)`) is framework code not
present in src/. Per the spec's algorithm, a document is split into chunks of a
fixed size `C` with overlap `O`: each chunk starts `C - O` units after the
previous one, so consecutive chunks share a contiguous span of `O` units; the
final chunk takes whatever remains. Documents are sequences of abstract units
(characters or tokens). -/
def split_chunks (C O : Nat) (xs : List α) : List (List α) :=
  if xs.length ≤ C ∨ C ≤ O then [xs]
  else xs.take C :: split_chunks C O (xs.drop (C - O))
termination_by xs.length
decreasing_by
  simp only [List.length_drop]
  omega

/-- Unfolding equation for `split_chunks`. -/
theorem split_chunks_unfold (C O : Nat) (xs : List α) :
    split_chunks C O xs =
      if xs.length ≤ C ∨ C ≤ O then [xs]
      else xs.take C :: split_chunks C O (xs.drop (C - O)) := by
  rw [split_chunks]

/-- When the overlap is smaller than the chunk size, the chunk list always
starts with the first `C` units of the document. -/
theorem split_chunks_cons (C O : Nat) (hOC : O < C) (xs : List α) :
    ∃ rest, split_chunks C O xs = xs.take C :: rest := by
  rw [split_chunks_unfold]
  by_cases h : xs.length ≤ C ∨ C ≤ O
  · rcases h with h | h
    · exact ⟨[], by simp [h, List.take_of_length_le h]⟩
    · omega
  · exact ⟨split_chunks C O (xs.drop (C - O)), by simp [h]⟩

/-- Reattachment of a chunk list: the first chunk, then each later chunk with
its leading `O`-unit overlap removed. -/
def reassemble (O : Nat) : List (List α) → List α
  | [] => []
  | c :: cs => c ++ (cs.map (fun d => d.drop O)).flatten

/-- The spec's reconstruction property: gluing the chunks back together with
the overlaps removed yields the original document. -/
theorem reassemble_split_chunks (C O : Nat) (hOC : O < C) (xs : List α) :
    reassemble O (split_chunks C O xs) = xs := by
  have main : ∀ n (ys : List α), ys.length ≤ n →
      reassemble O (split_chunks C O ys) = ys := by
    intro n
    induction n with
    | zero =>
      intro ys hlen
      have : ys = [] := List.eq_nil_of_length_eq_zero (Nat.le_zero.mp hlen)
      subst this
      rw [split_chunks_unfold]
      simp [reassemble]
    | succ n ih =>
      intro ys hlen
      rw [split_chunks_unfold]
      by_cases h : ys.length ≤ C ∨ C ≤ O
      · simp [h, reassemble]
      · push_neg at h
        obtain ⟨hC, _⟩ := h
        simp only [if_neg (by omega : ¬ (ys.length ≤ C ∨ C ≤ O))]
        set zs := ys.drop (C - O) with hzs
        have hzlen : zs.length = ys.length - (C - O) := by
          simp [hzs, List.length_drop]
        have hrec : reassemble O (split_chunks C O zs) = zs :=
          ih zs (by omega)
        obtain ⟨rest, hsplit⟩ := split_chunks_cons C O hOC zs
        rw [hsplit] at hrec
        have hhead : O ≤ (zs.take C).length := by
          simp only [List.length_take]
          omega
        have hjoin : ((zs.take C :: rest).map (fun d => d.drop O)).flatten
            = zs.drop O := by
          have : ((zs.take C :: rest).map (fun d => d.drop O)).flatten
              = (zs.take C).drop O ++ (rest.map (fun d => d.drop O)).flatten := by
            simp
          rw [this, ← List.drop_append_of_le_length hhead]
          simp only [reassemble] at hrec
          rw [hrec]
        rw [reassemble, hsplit, hjoin, hzs, List.drop_drop]
        have : C - O + O = C := by omega
        rw [this, List.take_append_drop]
  exact main xs.length xs (Nat.le_refl _)

/-- Two consecutive chunks overlap by exactly `O` units: the last `O` units of
the first equal the first `O` units of the second, both being long enough. -/
def overlaps (O : Nat) (a b : List α) : Prop :=
  O ≤ a.length ∧ O ≤ b.length ∧ a.drop (a.length - O) = b.take O

instance (O : Nat) [DecidableEq α] :
    DecidableRel (fun a b : List α => overlaps O a b) := by
  intro a b
  unfold overlaps
  infer_instance

/-- Every pair of consecutive chunks produced by the splitter overlaps by
exactly `O` units. -/
theorem split_chunks_overlap (C O : Nat) (hOC : O < C) (xs : List α) :
    List.Chain' (overlaps O) (split_chunks C O xs) := by
  have main : ∀ n (ys : List α), ys.length ≤ n →
      List.Chain' (overlaps O) (split_chunks C O ys) := by
    intro n
    induction n with
    | zero =>
      intro ys hlen
      have : ys = [] := List.eq_nil_of_length_eq_zero (Nat.le_zero.mp hlen)
      subst this
      rw [split_chunks_unfold]
      simp
    | succ n ih =>
      intro ys hlen
      rw [split_chunks_unfold]
      by_cases h : ys.length ≤ C ∨ C ≤ O
      · simp [h]
      · push_neg at h
        obtain ⟨hC, _⟩ := h
        simp only [if_neg (by omega : ¬ (ys.length ≤ C ∨ C ≤ O))]
        set zs := ys.drop (C - O) with hzs
        have hzlen : zs.length = ys.length - (C - O) := by
          simp [hzs, List.length_drop]
        have hchain : List.Chain' (overlaps O) (split_chunks C O zs) :=
          ih zs (by omega)
        obtain ⟨rest, hsplit⟩ := split_chunks_cons C O hOC zs
        rw [List.chain'_cons']
        refine ⟨?_, hchain⟩
        intro b hb
        rw [hsplit] at hb
        simp only [List.head?_cons, Option.mem_def, Option.some.injEq] at hb
        subst hb
        have hlen1 : (ys.take C).length = C := by
          simp only [List.length_take]
          omega
        refine ⟨by omega, ?_, ?_⟩
        · simp only [List.length_take]
          omega
        · rw [hlen1, List.drop_take, hzs, List.take_take]
          have h1 : C - (C - O) = O := by omega
          have h2 : min O C = O := by omega
          rw [h1, h2]
  exact main xs.length xs (Nat.le_refl _)

/-- C2: splitting a document with chunk size `C` and overlap `O < C` yields
chunks in which every pair of consecutive chunks shares exactly an `O`-unit
span (the last `O` units of one are the first `O` units of the next), and
gluing the chunks back together with the overlaps removed reconstructs the
original document; the configured defaults are `C = 512`, `O = 20`. -/
theorem chunk_overlap_and_reconstruction {α : Type} (C O : Nat) (hOC : O < C)
    (xs : List α) :
    List.Chain' (overlaps O) (split_chunks C O xs)
    ∧ reassemble O (split_chunks C O xs) = xs
    ∧ default_chunk_size = 512
    ∧ default_chunk_overlap = 20 :=
  ⟨split_chunks_overlap C O hOC xs, reassemble_split_chunks C O hOC xs,
    rfl, rfl⟩

/-- Witness for C2: a concrete eleven-unit document split with chunk size 5 and
overlap 2. -/
theorem chunk_overlap_and_reconstruction_witness :
    List.Chain' (overlaps 2) (split_chunks 5 2 [0, 1, 2, 3, 4, 5, 6, 7, 8, 9, 10])
    ∧ reassemble 2 (split_chunks 5 2 [0, 1, 2, 3, 4, 5, 6, 7, 8, 9, 10])
        = [0, 1, 2, 3, 4, 5, 6, 7, 8, 9, 10]
    ∧ default_chunk_size = 512
    ∧ default_chunk_overlap = 20 :=
  chunk_overlap_and_reconstruction 5 2 (by decide)
    ([0, 1, 2, 3, 4, 5, 6, 7, 8, 9, 10] : List Nat)

end RagAgent
